import Mathlib

/-!
# Verification of the nixpkgs-merge-bot merge-decision engine

A shallow embedding, in Lean 4, of the core of `nixpkgs-merge-bot`:

* `github.py` — the API gateway (`GithubClient._request`, `put`,
  `merge_pull_request`) and the process-wide credential cache
  (`get_github_client`);
* `webhook/issue_comment.py` — the webhook handler (`issue_response`,
  `process_pull_request_status`, `merge_command`, `issue_comment`);
* `github/Issue.py` — the `Issue` record.

Python effects (outbound HTTP calls, database writes, posted comments) are
modelled by explicit data: an environment record supplies the values the
handler would fetch from the network, and an `Effects` record logs the
outbound actions the handler performs.  Exceptions are modelled with
`Except`.  Machine-level concerns (real sockets, real time) do not appear:
time is a `Nat` parameter.
-/

namespace NixpkgsMergeBot

/-! ## API gateway (`github.py`) -/

/-- An outbound HTTP request as built by `GithubClient._request`
(`github.py` lines 68-89): the url is `urljoin("https://api.github.com/", path)`,
the headers are rebuilt from scratch (the caller's `headers` argument is
discarded by the reassignment on lines 76-80), and the body is the
JSON-encoded `data` when present (`body = None` when `data` is falsy). -/
structure OutboundRequest where
  url : String
  method : String
  headers : List (String × String)
  data : Option (List (String × String))
  deriving Repr, DecidableEq

/-- `urllib.parse.urljoin("https://api.github.com/", path)` for the paths the
client builds (all start with `/`). -/
def urljoinApi (path : String) : String :=
  if path.startsWith "/" then "https://api.github.com" ++ path
  else "https://api.github.com/" ++ path

/-- The header set `_request` installs (`github.py` lines 77-83). -/
def requestHeaders (api_token : Option String) : List (String × String) :=
  [("Content-Type", "application/json"),
   ("X-GitHub-Api-Version", "2022-11-28")]
  ++ (match api_token with
      | some tok => [("Authorization", "Bearer " ++ tok)]
      | none => [])
  ++ [("User-Agent", "nixpkgs-merge-bot")]

/-- What `urllib.request.urlopen` can do on one request: succeed with a
response body, raise `urllib.error.HTTPError` (an HTTP error status from the
server, carrying code, reason and a readable body), or raise a non-HTTP
transport error (`urllib.error.URLError` — DNS failure, connection refused,
…) which carries no HTTP status. -/
inductive TransportOutcome where
  | success (respBody : String)
  | httpError (code : Nat) (reason : String) (body : String)
  | transportError (msg : String)
  deriving Repr, DecidableEq

/-- An exception escaping `GithubClient._request`.  `githubClientError` is the
`GithubClientError(e.code, e.reason, url, resp_body)` raised on line 98 of
`github.py`; `rawTransportError` is any exception `urlopen` raises that the
`except urllib.request.HTTPError` clause on line 92 does not catch. -/
inductive RequestError where
  | githubClientError (code : Nat) (reason : String) (url : String) (body : String)
  | rawTransportError (msg : String)
  deriving Repr, DecidableEq

/-- The request `_request` builds on lines 75-89 of `github.py`, before the
transport runs — used to state what a given client method puts on the
wire. -/
def GithubClient.buildRequest (api_token : Option String) (path : String)
    (method : String) (data : Option (List (String × String))) : OutboundRequest :=
  { url := urljoinApi path, method := method,
    headers := requestHeaders api_token, data := data }

/-- `GithubClient._request` (`github.py` lines 68-99), with the transport
behaviour supplied as a function from the built request to a
`TransportOutcome`.  Only `HTTPError` is caught and rewrapped (into
`GithubClientError` carrying the code, reason, request url and response
body); a `transportError` propagates unchanged. -/
def GithubClient.request (transport : OutboundRequest → TransportOutcome)
    (api_token : Option String) (path : String) (method : String)
    (data : Option (List (String × String))) : Except RequestError String :=
  match transport (GithubClient.buildRequest api_token path method data) with
  | .success b => .ok b
  | .httpError code reason body =>
      .error (.githubClientError code reason (urljoinApi path) body)
  | .transportError m => .error (.rawTransportError m)

/-- `GithubClient.put` (`github.py` lines 107-108):
`return self._request(path, "PUT")` — the `data` parameter is accepted but
NOT forwarded, so the built request carries no body. -/
def GithubClient.putRequest (api_token : Option String) (path : String)
    (data : List (String × String)) : OutboundRequest :=
  GithubClient.buildRequest api_token path "PUT" none

/-- `GithubClient.merge_pull_request` (`github.py` lines 134-139): a PUT to
`/repos/{owner}/{repo}/pulls/{pr_number}/merge` with `data={"sha": sha}`
handed to `put`. -/
def GithubClient.mergePullRequestRequest (api_token : Option String)
    (owner repo : String) (pr_number : Nat) (sha : String) : OutboundRequest :=
  GithubClient.putRequest api_token
    ("/repos/" ++ owner ++ "/" ++ repo ++ "/pulls/" ++ toString pr_number ++ "/merge")
    [("sha", sha)]

/-! ## Credential cache (`github.py` lines 173-186) -/

/-- The fields of `GithubClient.__init__` (`github.py` lines 64-66):
`token_age` is the construction time (`time.time()`). -/
structure GithubClientState where
  api_token : Option String
  token_age : Nat
  deriving Repr, DecidableEq

/-- The module-level `CACHED_CLIENT` global (`github.py` line 173). -/
structure CacheState where
  cached_client : Option GithubClientState
  deriving Repr, DecidableEq

/-- `get_github_client` (`github.py` lines 176-186).  `now` is `time.time()`,
`mintedToken` the token `request_access_token` would return if called.
Returns the client handed back, the new global state, and the number of
network mints performed (0 or 1).  The cached client is reused iff it exists
and `token_age + 300 > now`; otherwise a fresh token is minted and a new
client (with `token_age = now`) replaces the cache. -/
def get_github_client (now : Nat) (mintedToken : String) (st : CacheState) :
    GithubClientState × CacheState × Nat :=
  match st.cached_client with
  | some c =>
      if c.token_age + 300 > now then (c, st, 0)
      else
        let c' : GithubClientState := { api_token := some mintedToken, token_age := now }
        (c', { cached_client := some c' }, 1)
  | none =>
      let c' : GithubClientState := { api_token := some mintedToken, token_age := now }
      (c', { cached_client := some c' }, 1)

/-! ## Webhook data (`github/Issue.py`, external records) -/

/-- The `Issue` dataclass (`github/Issue.py` lines 5-17). -/
structure Issue where
  user_id : Nat
  user_login : String
  text : String
  action : String
  comment_id : Nat
  repo_owner : String
  repo_name : String
  issue_number : Nat
  is_bot : Bool
  title : String
  state : String
  deriving Repr, DecidableEq

/-- Modelled from the spec: the settings module is not part of the given
sources; of its fields only the bot's name (`@{bot_name}` in the command
pattern, spec section 4.3) is consulted by the embedded code. -/
structure Settings where
  bot_name : String
  deriving Repr, DecidableEq

/-- Modelled from the spec: `HttpResponse{status, headers, body}` (spec
section 6), the record `webhook/http_response.py` supplies to
`issue_response`. -/
structure HttpResponse where
  status : Nat
  headers : List (String × String)
  body : String
  deriving Repr, DecidableEq

/-- `json.dumps({"action": action})` as Python renders it. -/
def jsonActionBody (action : String) : String :=
  "\x7b\"action\": \"" ++ action ++ "\"\x7d"

/-- `issue_response` (`issue_comment.py` lines 17-18):
`HttpResponse(200, {}, json.dumps({"action": action}).encode("utf-8"))`. -/
def issue_response (action : String) : HttpResponse :=
  { status := 200, headers := [], body := jsonActionBody action }

/-! ## CI reconciliation (`issue_comment.py` lines 21-78) -/

/-- One element of the `check_suites` array fetched for the head commit: the
fields `process_pull_request_status` reads (`app.name`, `status`,
`conclusion`).  A JSON `null` conclusion is modelled as a string distinct
from `"success"` and `"skipped"`, which is all the code observes of it. -/
structure CheckSuite where
  appName : String
  status : String
  conclusion : String
  deriving Repr, DecidableEq

/-- The loop body of `process_pull_request_status` over one check suite
(`issue_comment.py` lines 53-76), acting on the accumulator
`(check_suite_success, check_suite_pending, check_suite_failed, messages)`.
Note line 63 of the source sets `check_suite_pending = False` (not `True`)
when a suite is not completed. -/
def checkSuiteStep (acc : Bool × Bool × Bool × List String) (cs : CheckSuite) :
    Bool × Bool × Bool × List String :=
  let (success, pending, failed, messages) := acc
  if cs.status ≠ "completed" then
    (false, false, failed,
      messages ++ ["Check suite " ++ cs.appName ++ " is not completed, we will wait for it to finish and if it succeeds we will merge this."])
  else if ¬ (cs.conclusion = "success" ∨ cs.conclusion = "skipped") then
    (false, pending, true,
      messages ++ ["Check suite " ++ cs.appName ++ " is " ++ cs.conclusion])
  else
    (success, pending, failed, messages)

/-- `process_pull_request_status` (`issue_comment.py` lines 21-78) as a pure
function of the fetched data: `state` is `statuses["state"]` from the
combined-status call, `suites` the `check_suites` array.  Returns
`(statuses/check_suite success, pending, failed, messages)` exactly as the
source's four-tuple. -/
def process_pull_request_status (state : String) (suites : List CheckSuite) :
    Bool × Bool × Bool × List String :=
  let statuses_success := true
  let statuses_pending := false
  let statuses_failed := false
  let messages : List String := []
  let statuses_success := if state ≠ "success" then false else statuses_success
  if state = "pending" then
    (false, true, statuses_failed, messages ++ ["Some status is still pending"])
  else if statuses_success then
    suites.foldl checkSuiteStep (true, false, false, messages)
  else
    (statuses_success, statuses_pending, statuses_failed, messages)

/-- Whether the control flow of `process_pull_request_status` reaches the
`client.get_check_suites_for_commit` call (`issue_comment.py` lines 50-52):
the early `return` on line 43 fires when the state is `"pending"`, and the
fetch sits under `if statuses_success:` (line 44), which after line 34-35
holds exactly when the state is `"success"`. -/
def check_suites_fetched (state : String) : Bool :=
  if state = "pending" then false else state = "success"

/-! ## Command recognition (`issue_comment.py` lines 237-243)

`re.sub("(<!--.*?-->)", "", text, flags=re.DOTALL)` removes every region
from a `<!--` to the earliest following `-->` (non-greedy, dot matches
newlines); text after a `<!--` with no closing `-->` is left untouched.
`re.match(rf"@{bot_name}\s+merge", stripped)` is anchored at the start of
the string (not at line starts) and matches a prefix: `@`, the bot name
literally (`re.escape`), one or more whitespace characters, then `merge`,
with arbitrary text allowed after. -/

/-- Scan for the earliest `-->`; `some r` is the text after it. -/
def dropToClose : List Char → Option (List Char)
  | [] => none
  | c :: cs =>
    if ['-', '-', '>'].isPrefixOf (c :: cs) then some ((c :: cs).drop 3)
    else dropToClose cs

theorem dropToClose_length {l r : List Char} (h : dropToClose l = some r) :
    r.length + 3 ≤ l.length := by
  induction l with
  | nil => simp [dropToClose] at h
  | cons c cs ih =>
    rw [dropToClose] at h
    split at h
    · rename_i hp
      have hle : (['-', '-', '>'] : List Char).length ≤ (c :: cs).length :=
        (List.isPrefixOf_iff_prefix.mp hp).length_le
      simp only [Option.some.injEq] at h
      subst h
      simp only [List.length_cons, List.length_drop] at *
      omega
    · have := ih h
      simp only [List.length_cons]
      omega

/-- The effect of `re.sub("(<!--.*?-->)", "", text, flags=re.DOTALL)` on the
character list of the text.  Each recursive call is on a strict suffix of
the input; the recursion is written on a `fuel` counter (kept structural so
the kernel can evaluate it), and `stripHtmlCommentsAux_fuel_irrelevant`
below shows any fuel of at least the input's length — in particular the
`s.data.length` used by `stripHtmlComments` — computes the same result. -/
def stripHtmlCommentsAux (fuel : Nat) (l : List Char) : List Char :=
  match fuel, l with
  | 0, l => l
  | _ + 1, [] => []
  | fuel + 1, c :: cs =>
    if ['<', '!', '-', '-'].isPrefixOf (c :: cs) then
      match dropToClose (cs.drop 3) with
      | some rest => stripHtmlCommentsAux fuel rest
      | none => c :: cs
    else
      c :: stripHtmlCommentsAux fuel cs

theorem stripHtmlCommentsAux_fuel_irrelevant :
    ∀ (fuel₁ fuel₂ : Nat) (l : List Char),
      l.length ≤ fuel₁ → l.length ≤ fuel₂ →
      stripHtmlCommentsAux fuel₁ l = stripHtmlCommentsAux fuel₂ l := by
  intro fuel₁
  induction fuel₁ with
  | zero =>
    intro fuel₂ l h1 _
    have : l = [] := List.length_eq_zero.mp (Nat.le_zero.mp h1)
    subst this
    cases fuel₂ <;> rfl
  | succ f ih =>
    intro fuel₂ l h1 h2
    match l with
    | [] => cases fuel₂ <;> rfl
    | c :: cs =>
      match fuel₂ with
      | 0 => simp at h2
      | g + 1 =>
        simp only [List.length_cons] at h1 h2
        show stripHtmlCommentsAux (f + 1) (c :: cs) =
          stripHtmlCommentsAux (g + 1) (c :: cs)
        rw [stripHtmlCommentsAux, stripHtmlCommentsAux]
        split
        · rename_i hp
          cases hdrop : dropToClose (cs.drop 3) with
          | none => simp
          | some rest =>
            have hlen := dropToClose_length hdrop
            simp only [List.length_drop] at hlen
            simp only [hdrop]
            exact ih g rest (by omega) (by omega)
        · have := ih g cs (by omega) (by omega)
          simp [this]

/-- `issue_comment.py` line 237: HTML comments stripped from the comment
text.  Fenced code blocks are NOT stripped — no code in the handler touches
them. -/
def stripHtmlComments (s : String) : String :=
  String.mk (stripHtmlCommentsAux s.data.length s.data)

/-- Python's `\s` on the ASCII range (space, tab, newline, carriage return,
vertical tab, form feed) — sufficient for every character the embedded
claims exercise. -/
def isPythonSpace (c : Char) : Bool :=
  c = ' ' || c = '\t' || c = '\n' || c = '\r' || c = '\x0b' || c = '\x0c'

/-- `re.match(rf"@{bot_name}\s+merge", stripped)` (`issue_comment.py` line
239) viewed as a Bool: the text must begin with `@` followed by the bot name
(matched literally, thanks to `re.escape`), then one or more whitespace
characters, then `merge`; anything may follow.  Since `merge` does not start
with whitespace, `\s+merge` succeeds exactly when the whole leading
whitespace run is non-empty and is followed by `merge`. -/
def matchesMergeCommand (bot_name : String) (text : String) : Bool :=
  let pat := '@' :: bot_name.data
  if pat.isPrefixOf text.data then
    match text.data.drop pat.length with
    | [] => false
    | c :: cs =>
        isPythonSpace c && "merge".data.isPrefixOf (cs.dropWhile isPythonSpace)
  else false

/-- Whitespace trimmed from both ends of a character list (Python's
`str.strip()` on the ASCII range). -/
def trimChars (l : List Char) : List Char :=
  ((l.dropWhile isPythonSpace).reverse.dropWhile isPythonSpace).reverse

/-- The command recogniser as the spec words it (sections 4.3 and 8): some
entire line of the stripped text, after trimming whitespace, equals
`@{bot_name} merge` exactly.  Kept for comparison with
`matchesMergeCommand`, the recogniser the source implements. -/
def specExactLineCommand (bot_name : String) (text : String) : Bool :=
  (text.data.splitOn '\n').any
    (fun l => trimChars l = '@' :: bot_name.data ++ ' ' :: "merge".data)

/-! ## The merge command handler (`issue_comment.py` lines 81-243)

The handler's network reads are supplied through a `MergeEnv`; its outbound
actions are logged in an `Effects` record. -/

/-- Outbound side effects of one handler run: issue reactions created
(comment id, reaction), database writes (`db.add(sha, issue_number)`),
issue comments posted, and `merge_pull_request` invocations
(owner, repo, number, sha). -/
structure Effects where
  reactions : List (Nat × String)
  db_adds : List (String × String)
  comments : List String
  merge_calls : List (String × String × Nat × String)
  deriving Repr, DecidableEq

/-- No outbound action. -/
def noEffects : Effects :=
  { reactions := [], db_adds := [], comments := [], merge_calls := [] }

/-- The values `merge_command` fetches over the network: the pull request's
head sha, the verdict `(check, decline_reasons)` of each configured merge
strategy, the combined-status `state`, the `check_suites` array, and — when
the merge call itself is reached — `none` for a successful merge or
`some (code, reason, body)` for a `GithubClientError` raised by it. -/
structure MergeEnv where
  head_sha : String
  strategies : List (Bool × List String)
  statuses_state : String
  check_suites : List CheckSuite
  merge_error : Option (Nat × String × String)
  deriving Repr, DecidableEq

/-- A Python runtime error escaping the handler (the only one the embedded
code can raise is the `NameError` on `issue_comment.py` line 171, where the
local `msg` is referenced on a path that never assigned it). -/
inductive PyRuntimeError where
  | nameError (name : String)
  deriving Repr, DecidableEq

/-- Result of one handler run: the response returned normally, or the
runtime error raised; plus the outbound actions performed before either. -/
structure MergeOutcome where
  response : Except PyRuntimeError HttpResponse
  effects : Effects
  deriving Repr

/-- The decline message built on `issue_comment.py` lines 176-178, 189-191
and 206-208: `"@{user} merge not permitted: \n"` followed by each reason and
a newline. -/
def declineMsg (user_login : String) (reasons : List String) : String :=
  reasons.foldl (fun m r => m ++ r ++ "\n")
    ("@" ++ user_login ++ " merge not permitted: \n")

/-- `merge_command` (`issue_comment.py` lines 81-217).  Control flow is
translated branch for branch:

* lines 95-102: fold the strategies, OR the `check` flags, concatenate the
  decline reasons;
* lines 110-116: on any pass, create the `rocket` reaction;
* lines 117-124: run `process_pull_request_status`, extend the reasons with
  its messages, and — the dry-run branch — force `success` to `False`,
  appending `"Dry run bot"`;
* lines 125-136: `pending` ⇒ `db.add(head_sha, str(issue_number))`, one
  status comment, `merge-postponed`;
* lines 137-173: `elif success` ⇒ call `merge_pull_request`; on success
  comment `"Merge completed"` and answer `merged`; on `GithubClientError`
  the source evaluates the unbound local `msg` (line 171) and raises
  `NameError` before any comment is posted;
* lines 174-200: `failed`, and the final else, both post the decline
  message and answer `not-permitted`;
* lines 202-217: no strategy passed ⇒ decline message, `not-permitted`. -/
def merge_command (issue : Issue) (env : MergeEnv) : MergeOutcome :=
  let one_merge_strategy_passed := env.strategies.any (fun s => s.1)
  let decline_reasons := env.strategies.foldl (fun acc s => acc ++ s.2) []
  if one_merge_strategy_passed then
    let reactions := [(issue.comment_id, "rocket")]
    let (success, pending, failed, messages) :=
      process_pull_request_status env.statuses_state env.check_suites
    let decline_reasons := decline_reasons ++ messages
    let (success, decline_reasons) :=
      if success then (false, decline_reasons ++ ["Dry run bot"])
      else (success, decline_reasons)
    if pending then
      { response := .ok (issue_response "merge-postponed"),
        effects :=
          { reactions := reactions,
            db_adds := [(env.head_sha, toString issue.issue_number)],
            comments := ["One or more checks are still pending, we will wait for them to finish and if it succeeds we will merge this."],
            merge_calls := [] } }
    else if success then
      match env.merge_error with
      | none =>
          { response := .ok (issue_response "merged"),
            effects :=
              { reactions := reactions, db_adds := [],
                comments := ["Merge completed"],
                merge_calls :=
                  [(issue.repo_owner, issue.repo_name, issue.issue_number,
                    env.head_sha)] } }
      | some _ =>
          { response := .error (.nameError "msg"),
            effects :=
              { reactions := reactions, db_adds := [], comments := [],
                merge_calls :=
                  [(issue.repo_owner, issue.repo_name, issue.issue_number,
                    env.head_sha)] } }
    else if failed then
      { response := .ok (issue_response "not-permitted"),
        effects :=
          { reactions := reactions, db_adds := [],
            comments := [declineMsg issue.user_login decline_reasons],
            merge_calls := [] } }
    else
      { response := .ok (issue_response "not-permitted"),
        effects :=
          { reactions := reactions, db_adds := [],
            comments := [declineMsg issue.user_login decline_reasons],
            merge_calls := [] } }
  else
    { response := .ok (issue_response "not-permitted"),
      effects :=
        { reactions := [], db_adds := [],
          comments := [declineMsg issue.user_login decline_reasons],
          merge_calls := [] } }

/-- `issue_comment` (`issue_comment.py` lines 220-243): the event filter and
command recogniser in front of `merge_command`.  `has_pull_request` is the
truthiness of `body["issue"].get("pull_request")`. -/
def issue_comment (issue : Issue) (has_pull_request : Bool)
    (settings : Settings) (env : MergeEnv) : MergeOutcome :=
  if issue.is_bot then
    { response := .ok (issue_response "ignore-bot"), effects := noEffects }
  else if ¬ has_pull_request then
    { response := .ok (issue_response "ignore-not-pr"), effects := noEffects }
  else if ¬ (issue.action = "created" ∨ issue.action = "edited") then
    { response := .ok (issue_response "ignore-action"), effects := noEffects }
  else
    let stripped := stripHtmlComments issue.text
    if matchesMergeCommand settings.bot_name stripped then
      merge_command issue env
    else
      { response := .ok (issue_response "no-command"), effects := noEffects }

/-! ## Test fixtures -/

/-- A plain, accepted comment event from a human user. -/
def sampleIssue : Issue :=
  { user_id := 7, user_login := "alice", text := "@nixpkgs-merge-bot merge",
    action := "created", comment_id := 42, repo_owner := "NixOS",
    repo_name := "nixpkgs", issue_number := 1, is_bot := false,
    title := "pkg: 1.0 -> 1.1", state := "open" }

/-- The same event as issued by a bot account. -/
def botIssue : Issue := { sampleIssue with is_bot := true }

/-- Settings with the production bot name. -/
def sampleSettings : Settings := { bot_name := "nixpkgs-merge-bot" }

/-- One approving strategy, green combined status, no check suites. -/
def passEnv : MergeEnv :=
  { head_sha := "abc123", strategies := [(true, [])],
    statuses_state := "success", check_suites := [], merge_error := none }

/-- One approving strategy, green combined status, one check suite still
running. -/
def pendingSuiteEnv : MergeEnv :=
  { passEnv with check_suites := [⟨"ofborg", "in_progress", "null"⟩] }

/-- An accepted event whose text holds the command only inside an HTML
comment. -/
def htmlCommentIssue : Issue :=
  { sampleIssue with text := "<!-- @nixpkgs-merge-bot merge -->" }

/-- An accepted event whose text holds the command only inside a fenced
code block. -/
def codeBlockIssue : Issue :=
  { sampleIssue with text := "```\n@nixpkgs-merge-bot merge\n```" }

/-! ## Helper lemmas -/

theorem checkSuiteStep_success_eq (acc : Bool × Bool × Bool × List String)
    (cs : CheckSuite) (h : (checkSuiteStep acc cs).1 = true) :
    checkSuiteStep acc cs = acc := by
  obtain ⟨s, p, f, m⟩ := acc
  by_cases h1 : cs.status = "completed"
  · by_cases h2 : cs.conclusion = "success" ∨ cs.conclusion = "skipped"
    · simp [checkSuiteStep, h1, h2]
    · simp [checkSuiteStep, h1, h2] at h
  · simp [checkSuiteStep, h1] at h

theorem foldl_checkSuiteStep_success_eq :
    ∀ (l : List CheckSuite) (acc : Bool × Bool × Bool × List String),
      (l.foldl checkSuiteStep acc).1 = true → l.foldl checkSuiteStep acc = acc := by
  intro l
  induction l with
  | nil => intro acc _; rfl
  | cons c cs ih =>
    intro acc h
    simp only [List.foldl_cons] at h ⊢
    have h2 := ih (checkSuiteStep acc c) h
    have h3 : (checkSuiteStep acc c).1 = true := by rw [← h2]; exact h
    rw [h2, checkSuiteStep_success_eq acc c h3]

theorem process_success_shape (state : String) (suites : List CheckSuite)
    (h : (process_pull_request_status state suites).1 = true) :
    process_pull_request_status state suites = (true, false, false, []) ∧
      state = "success" := by
  by_cases hs : state = "success"
  · subst hs
    have hrw : process_pull_request_status "success" suites =
        suites.foldl checkSuiteStep (true, false, false, []) := rfl
    rw [hrw] at h
    exact ⟨hrw.trans (foldl_checkSuiteStep_success_eq suites _ h), rfl⟩
  · exfalso
    by_cases hpend : state = "pending"
    · subst hpend
      simp [process_pull_request_status] at h
    · simp [process_pull_request_status, hs, hpend] at h

theorem declineMsg_snoc (u : String) (l : List String) (x : String) :
    declineMsg u (l ++ [x]) = declineMsg u l ++ x ++ "\n" := by
  simp [declineMsg, List.foldl_append]

theorem merge_command_response_cases (issue : Issue) (env : MergeEnv) :
    (∃ e, (merge_command issue env).response = .error e) ∨
    (merge_command issue env).response = .ok (issue_response "merge-postponed") ∨
    (merge_command issue env).response = .ok (issue_response "merged") ∨
    (merge_command issue env).response = .ok (issue_response "not-permitted") := by
  unfold merge_command
  rcases hP : process_pull_request_status env.statuses_state env.check_suites
    with ⟨s, p, f, m⟩
  cases env.strategies.any (fun x => x.1)
  · simp
  · cases s <;> cases p <;> cases f <;> cases env.merge_error <;> simp

theorem issue_comment_response_cases (issue : Issue) (hpr : Bool)
    (settings : Settings) (env : MergeEnv) :
    (∃ e, (issue_comment issue hpr settings env).response = .error e) ∨
    (∃ a, a ∈ ["ignore-bot", "ignore-not-pr", "ignore-action", "no-command",
               "merge-postponed", "merged", "not-permitted"] ∧
      (issue_comment issue hpr settings env).response = .ok (issue_response a)) := by
  unfold issue_comment
  split
  · exact Or.inr ⟨"ignore-bot", by simp, rfl⟩
  · split
    · exact Or.inr ⟨"ignore-not-pr", by simp, rfl⟩
    · split
      · exact Or.inr ⟨"ignore-action", by simp, rfl⟩
      · dsimp only
        split
        · rcases merge_command_response_cases issue env with ⟨e, he⟩ | he | he | he
          · exact Or.inl ⟨e, he⟩
          · exact Or.inr ⟨"merge-postponed", by simp, he⟩
          · exact Or.inr ⟨"merged", by simp, he⟩
          · exact Or.inr ⟨"not-permitted", by simp, he⟩
        · exact Or.inr ⟨"no-command", by simp, rfl⟩

/-! ## The claims -/

/-- Claim C1: the spec demands that the PUT to the merge endpoint carry a
request body with the field `sha`, the optimistic-concurrency guard.  The
code violates this: `GithubClient.put` (`github.py` line 108) calls
`self._request(path, "PUT")` without forwarding its `data` parameter, so the
request `merge_pull_request` puts on the wire has no body at all — for every
owner, repo, pull number and sha. -/
theorem merge_put_drops_sha_body (tok : Option String) (owner repo : String)
    (pr_number : Nat) (sha : String) :
    (GithubClient.mergePullRequestRequest tok owner repo pr_number sha).data =
      none := rfl

/-- Claim C2: whenever some merge strategy approves and CI reconciliation
reports success, `merge_command` never calls `merge_pull_request`: the
dry-run branch forces the decision into a decline, `"Dry run bot"` is
appended to the decline reasons (it closes the posted decline message), and
the response action is `not-permitted`. -/
theorem dry_run_forces_not_permitted (issue : Issue) (env : MergeEnv)
    (hpass : env.strategies.any (fun s => s.1) = true)
    (hsucc : (process_pull_request_status env.statuses_state env.check_suites).1
      = true) :
    (merge_command issue env).response = .ok (issue_response "not-permitted") ∧
    (merge_command issue env).effects.merge_calls = [] ∧
    ∃ pre, (merge_command issue env).effects.comments =
      [pre ++ "Dry run bot" ++ "\n"] := by
  obtain ⟨hshape, -⟩ := process_success_shape _ _ hsucc
  unfold merge_command
  rw [hshape, hpass]
  refine ⟨by simp, by simp, ?_⟩
  refine ⟨declineMsg issue.user_login
    (env.strategies.foldl (fun acc s => acc ++ s.2) [] ++ []), ?_⟩
  simp [declineMsg_snoc]

/-- Claim C2, witness: a concrete run (one approving strategy, green
statuses, no check suites) satisfying both hypotheses of
`dry_run_forces_not_permitted`. -/
theorem dry_run_forces_not_permitted_check :
    (passEnv.strategies.any (fun s => s.1) = true ∧
     (process_pull_request_status passEnv.statuses_state passEnv.check_suites).1
       = true) ∧
    ((merge_command sampleIssue passEnv).response =
       .ok (issue_response "not-permitted") ∧
     (merge_command sampleIssue passEnv).effects.merge_calls = [] ∧
     ∃ pre, (merge_command sampleIssue passEnv).effects.comments =
       [pre ++ "Dry run bot" ++ "\n"]) :=
  ⟨⟨rfl, rfl⟩, dry_run_forces_not_permitted sampleIssue passEnv rfl rfl⟩

/-- Claim C3: the spec says a suite with `status != completed` (under green
combined statuses) makes the outcome Pending, with a `PendingMerge` write
and a `merge-postponed` answer.  The code violates this: line 63 of
`issue_comment.py` sets `check_suite_pending = False` where its own comment
(line 57) and the message it appends promise to wait, so the run reports
`(success=false, pending=false, failed=false)`, `merge_command` performs no
database write and answers `not-permitted`. -/
theorem incomplete_check_suite_not_postponed :
    process_pull_request_status "success" [⟨"ofborg", "in_progress", "null"⟩] =
      (false, false, false,
        ["Check suite ofborg is not completed, we will wait for it to finish and if it succeeds we will merge this."]) ∧
    (merge_command sampleIssue pendingSuiteEnv).response =
      .ok (issue_response "not-permitted") ∧
    (merge_command sampleIssue pendingSuiteEnv).effects.db_adds = [] :=
  ⟨rfl, rfl, rfl⟩

/-- Claim C4, counterexample: at combined status state `"failure"` the claim
demands the failed flag of the result be `true`; the code leaves
`statuses_failed` at its initial `False` (no branch of
`process_pull_request_status` ever sets it), so the result is
`(false, false, false, [])`. -/
theorem statuses_failure_not_flagged_failed :
    (process_pull_request_status "failure" []).2.2.1 = false ∧
    process_pull_request_status "failure" [] = (false, false, false, []) :=
  ⟨rfl, rfl⟩

/-- Claim C4 as amended: when the combined status state is neither
`"success"` nor `"pending"`, `process_pull_request_status` returns with the
success and pending flags false — and the failed flag also false and no
messages, failure being conveyed only by the absence of the other flags. -/
theorem statuses_non_success_shape (state : String) (suites : List CheckSuite)
    (h1 : state ≠ "success") (h2 : state ≠ "pending") :
    process_pull_request_status state suites = (false, false, false, []) := by
  simp [process_pull_request_status, h1, h2]

/-- Claim C4, witness for the amended theorem, at state `"failure"`. -/
theorem statuses_non_success_shape_check :
    (("failure" : String) ≠ "success" ∧ ("failure" : String) ≠ "pending") ∧
    process_pull_request_status "failure" [] = (false, false, false, []) :=
  ⟨⟨by decide, by decide⟩,
   statuses_non_success_shape "failure" [] (by decide) (by decide)⟩

/-- Claim C5, counterexample: the claim says the command fires iff an entire
trimmed line equals `@{bot_name} merge`, so `"@bot merge please"` must not
fire — but `re.match` tests an anchored prefix, so it does fire; likewise
`"@bot  merge"` (double space, matched by `\\s+`) fires, and a command on
the second line, which the claim accepts, does not fire. -/
theorem merge_command_matches_non_exact_line :
    matchesMergeCommand "bot" "@bot merge please" = true ∧
    specExactLineCommand "bot" "@bot merge please" = false ∧
    matchesMergeCommand "bot" "@bot  merge" = true ∧
    matchesMergeCommand "bot" "x\n@bot merge" = false ∧
    specExactLineCommand "bot" "x\n@bot merge" = true := by decide

/-- Claim C5 as amended: command recognition is an anchored prefix match —
the stripped text itself must begin with `@{bot_name}`, one or more
whitespace characters, then `merge`; trailing text and repeated spaces are
accepted, while leading whitespace or a preceding line prevents a match. -/
theorem merge_command_prefix_match_behaviour :
    matchesMergeCommand "bot" "@bot merge" = true ∧
    matchesMergeCommand "bot" "@bot merge please" = true ∧
    matchesMergeCommand "bot" "@bot  merge" = true ∧
    matchesMergeCommand "bot" "  @bot merge this" = false ∧
    matchesMergeCommand "bot" "x\n@bot merge" = false := by decide

/-- Claim C6, counterexample: the claim says both HTML comments and fenced
code blocks are stripped before matching; the code strips only HTML
comments, so the fenced block — with the command line inside it — survives
stripping verbatim. -/
theorem fenced_code_block_not_stripped :
    stripHtmlComments "```\n@nixpkgs-merge-bot merge\n```" =
      "```\n@nixpkgs-merge-bot merge\n```" ∧
    specExactLineCommand "nixpkgs-merge-bot"
      (stripHtmlComments "```\n@nixpkgs-merge-bot merge\n```") = true := by
  decide

/-- Claim C6 as amended: only HTML comments are stripped before matching.  A
command inside an HTML comment is removed by the stripping; a command inside
a fenced code block is not stripped, but still fails to match because the
match is anchored at the start of the text, which the fence occupies.  In
both cases the handler answers `no-command` and performs no outbound
action. -/
theorem hidden_command_yields_no_command :
    stripHtmlComments htmlCommentIssue.text = "" ∧
    issue_comment htmlCommentIssue true sampleSettings passEnv =
      { response := .ok (issue_response "no-command"), effects := noEffects } ∧
    matchesMergeCommand sampleSettings.bot_name
      (stripHtmlComments codeBlockIssue.text) = false ∧
    issue_comment codeBlockIssue true sampleSettings passEnv =
      { response := .ok (issue_response "no-command"), effects := noEffects } :=
  ⟨rfl, rfl, rfl, rfl⟩

/-- Claim C7: a second call to `get_github_client` made less than 300
seconds after the last token mint (the `token_age` of the client the first
call produced) performs no network mint and returns the identical cached
client, leaving the cache unchanged. -/
theorem credential_cache_hit (t₀ t₁ : Nat) (tok₀ tok₁ : String)
    (st₀ : CacheState)
    (h : (get_github_client t₀ tok₀ st₀).1.token_age + 300 > t₁) :
    get_github_client t₁ tok₁ (get_github_client t₀ tok₀ st₀).2.1 =
      ((get_github_client t₀ tok₀ st₀).1,
       (get_github_client t₀ tok₀ st₀).2.1, 0) := by
  obtain ⟨cc⟩ := st₀
  cases cc with
  | none =>
    simp only [get_github_client] at h ⊢
    rw [if_pos h]
  | some c =>
    by_cases hfresh : c.token_age + 300 > t₀
    · simp only [get_github_client, if_pos hfresh] at h ⊢
      rw [if_pos h]
    · simp only [get_github_client, if_neg hfresh] at h ⊢
      rw [if_pos h]

/-- Claim C7, witness: first call at time 1000 on an empty cache, second
call at time 1100 — within the 300-second window. -/
theorem credential_cache_hit_check :
    (get_github_client 1000 "tokA" ⟨none⟩).1.token_age + 300 > 1100 ∧
    get_github_client 1100 "tokB" (get_github_client 1000 "tokA" ⟨none⟩).2.1 =
      ((get_github_client 1000 "tokA" ⟨none⟩).1,
       (get_github_client 1000 "tokA" ⟨none⟩).2.1, 0) :=
  ⟨by decide, credential_cache_hit 1000 1100 "tokA" "tokB" ⟨none⟩ (by decide)⟩

/-- Claim C8: with combined status state `"pending"`, CI reconciliation
returns Pending with exactly the message `"Some status is still pending"`,
the result is independent of whatever check-suite data two runs might see,
and the check-suite fetch is never reached. -/
theorem pending_statuses_short_circuit (suites₁ suites₂ : List CheckSuite) :
    process_pull_request_status "pending" suites₁ =
      (false, true, false, ["Some status is still pending"]) ∧
    process_pull_request_status "pending" suites₁ =
      process_pull_request_status "pending" suites₂ ∧
    check_suites_fetched "pending" = false :=
  ⟨rfl, rfl, rfl⟩

/-- A transport behaviour on which `urlopen` raises a connection-level
`URLError` — no HTTP response, hence no status code — for every request. -/
def refusedTransport : OutboundRequest → TransportOutcome :=
  fun _ => .transportError "Connection refused"

/-- Claim C9, counterexample: the claim says no raw transport exception ever
propagates past the gateway; but `_request` catches only
`urllib.request.HTTPError` (`github.py` line 92), so on a connection-level
failure the raw exception — not a `GithubClientError` — escapes. -/
theorem raw_transport_error_escapes :
    GithubClient.request refusedTransport (some "tok") "/app/installations"
      "GET" none = .error (.rawTransportError "Connection refused") := rfl

/-- Claim C9 as amended: every gateway operation either returns a successful
response, or — when the server answered with an HTTP error status — raises
`GithubClientError` carrying that status code, reason phrase, the request
url and the response body; a connection-level transport failure propagates
unwrapped. -/
theorem request_error_classification
    (transport : OutboundRequest → TransportOutcome) (tok : Option String)
    (path method : String) (data : Option (List (String × String))) :
    (∃ b, GithubClient.request transport tok path method data = .ok b) ∨
    (∃ code reason body,
       transport (GithubClient.buildRequest tok path method data) =
         .httpError code reason body ∧
       GithubClient.request transport tok path method data =
         .error (.githubClientError code reason (urljoinApi path) body)) ∨
    (∃ msg,
       transport (GithubClient.buildRequest tok path method data) =
         .transportError msg ∧
       GithubClient.request transport tok path method data =
         .error (.rawTransportError msg)) := by
  unfold GithubClient.request
  cases htr : transport (GithubClient.buildRequest tok path method data) with
  | success b => exact Or.inl ⟨b, rfl⟩
  | httpError c r b => exact Or.inr (Or.inl ⟨c, r, b, rfl, rfl⟩)
  | transportError m => exact Or.inr (Or.inr ⟨m, rfl, rfl⟩)

/-- Claim C10: whenever `issue_comment` returns normally, the response has
HTTP status 200, empty headers, and a body JSON-encoding exactly
`{"action": s}` with `s` drawn from the fixed action set — declines and
merge failures included. -/
theorem issue_comment_response_shape (issue : Issue) (hpr : Bool)
    (settings : Settings) (env : MergeEnv) (resp : HttpResponse)
    (h : (issue_comment issue hpr settings env).response = .ok resp) :
    resp.status = 200 ∧ resp.headers = [] ∧
    (resp.body = jsonActionBody "ignore-bot" ∨
     resp.body = jsonActionBody "ignore-not-pr" ∨
     resp.body = jsonActionBody "ignore-action" ∨
     resp.body = jsonActionBody "no-command" ∨
     resp.body = jsonActionBody "merge-postponed" ∨
     resp.body = jsonActionBody "merged" ∨
     resp.body = jsonActionBody "merge-failed" ∨
     resp.body = jsonActionBody "not-permitted") := by
  rcases issue_comment_response_cases issue hpr settings env
    with ⟨e, he⟩ | ⟨a, ha, he⟩
  · rw [he] at h
    exact absurd h (by simp)
  · rw [he] at h
    obtain rfl : issue_response a = resp := by injection h
    refine ⟨rfl, rfl, ?_⟩
    simp only [List.mem_cons, List.not_mem_nil, or_false] at ha
    rcases ha with rfl | rfl | rfl | rfl | rfl | rfl | rfl <;> tauto

/-- Claim C10, witness: the bot-authored event returns normally with action
`ignore-bot`, and the response satisfies the shape property. -/
theorem issue_comment_response_shape_check :
    (issue_comment botIssue true sampleSettings passEnv).response =
      .ok (issue_response "ignore-bot") ∧
    ((issue_response "ignore-bot").status = 200 ∧
     (issue_response "ignore-bot").headers = [] ∧
     ((issue_response "ignore-bot").body = jsonActionBody "ignore-bot" ∨
      (issue_response "ignore-bot").body = jsonActionBody "ignore-not-pr" ∨
      (issue_response "ignore-bot").body = jsonActionBody "ignore-action" ∨
      (issue_response "ignore-bot").body = jsonActionBody "no-command" ∨
      (issue_response "ignore-bot").body = jsonActionBody "merge-postponed" ∨
      (issue_response "ignore-bot").body = jsonActionBody "merged" ∨
      (issue_response "ignore-bot").body = jsonActionBody "merge-failed" ∨
      (issue_response "ignore-bot").body = jsonActionBody "not-permitted")) :=
  ⟨rfl, issue_comment_response_shape botIssue true sampleSettings passEnv
    (issue_response "ignore-bot") rfl⟩

end NixpkgsMergeBot
